import Mathlib

/-!
Verification of the proxy-aware fetch wrapper (`src/shared/net.ts` and its
sibling drafts).  The pipeline of the range-based-classifier variant
(`part_000`) is embedded function by function: URL resolution, the
backslash/localhost rewrites, hostname extraction, Local/Remote
classification, method and body extraction with JS truthiness, the body
coercion stage with its try/catch, header reconstruction, and the outer
safety net that falls back to the baseline fetch.  The spread-based options
merge of the first `net.ts` document and the MockSlot seam of the second
`net.ts` document are embedded separately.
-/

/-! ## Basic string helpers (list-backed, so they evaluate in the kernel) -/

/-- Emptiness of a string, via its character list. -/
def strIsEmpty (s : String) : Bool := s.data.isEmpty

/-- Boolean prefix test on character lists (an empty pattern matches
anything). -/
def listIsPrefix : List Char → List Char → Bool
  | [], _ => true
  | _ :: _, [] => false
  | a :: as, b :: bs => (a == b) && listIsPrefix as bs

/-- Boolean prefix test on strings, via their character lists.  This models
the anchored textual prefix match performed by the classifier's regex. -/
def strStartsWith (p s : String) : Bool := listIsPrefix p.data s.data

/-- Characters of the decimal numeral of a natural number, most significant
digit first.  Fuel-based structural recursion so that it reduces in the
kernel; the fuel `n + 1` always suffices. -/
def natDigsCore : Nat → Nat → List Char
  | 0, _ => []
  | fuel + 1, n =>
    if n < 10 then [Nat.digitChar n]
    else natDigsCore fuel (n / 10) ++ [Nat.digitChar (n % 10)]

/-- Decimal digits of a natural number. -/
def natDigs (n : Nat) : List Char := natDigsCore (n + 1) n

/-- Decimal numeral of a natural number as a string. -/
def natToStr (n : Nat) : String := String.mk (natDigs n)

/-- Decimal printing of an integer, as the platform prints integral JSON
numbers. -/
def intRepr : Int → String
  | Int.ofNat m => natToStr m
  | Int.negSucc m => "-" ++ natToStr (m + 1)

/-- Splits a character list at the first occurrence of the pattern `p`,
returning the part before the occurrence and the part after it. -/
def splitFirstAux (p : List Char) : List Char → Option (List Char × List Char)
  | [] => if p.isEmpty then some ([], []) else none
  | c :: rest =>
    if listIsPrefix p (c :: rest) then some ([], (c :: rest).drop p.length)
    else
      match splitFirstAux p rest with
      | some (a, b) => some (c :: a, b)
      | none => none

/-- Splits a string at the first occurrence of `p`. -/
def splitFirst (p s : String) : Option (String × String) :=
  match splitFirstAux p.data s.data with
  | some (a, b) => some (String.mk a, String.mk b)
  | none => none

/-- Whether `p` occurs as a substring of `s`. -/
def occursSub (p s : String) : Bool := (splitFirst p s).isSome

/-- Models `String.prototype.replace` with a string (non-regex) pattern:
only the FIRST occurrence of `p` is replaced by `r`; with no occurrence the
string is returned unchanged. -/
def jsReplaceFirst (p r s : String) : String :=
  match splitFirst p s with
  | some (a, b) => a ++ r ++ b
  | none => s

/-- Models `url.replace(/\\/g, '/')`: a global regex replace that turns
every backslash into a forward slash. -/
def backslashFix (u : String) : String :=
  String.mk (u.data.map (fun c => if c == '\\' then '/' else c))

/-- Models `String.prototype.toUpperCase` on the ASCII method names the
wrapper handles. -/
def jsToUpper (s : String) : String := String.mk (s.data.map Char.toUpper)

/-- Models the hostname component produced by the platform URL parser
(`new URL(url).hostname`) on simple hierarchical URLs of the shape
`scheme://host[:port][/path][?query][#frag]`; `none` models the parser
throwing (no `://`, or empty scheme or authority). -/
def urlHostname (s : String) : Option String :=
  match splitFirst "://" s with
  | none => none
  | some (scheme, rest) =>
    if strIsEmpty scheme || strIsEmpty rest then none
    else some (String.mk (rest.data.takeWhile
      (fun c => !(c == '/' || c == ':' || c == '?' || c == '#'))))

/-! ## JSON values and their serialization (models `JSON.stringify`) -/

/-- JSON values: the serializable plain objects a caller can pass as a
request body.  Numbers are modelled as integers (the integral case of JS
numbers). -/
inductive Json where
  | null
  | bool (b : Bool)
  | num (n : Int)
  | str (s : String)
  | arr (elems : List Json)
  | obj (fields : List (String × Json))

/-- Escaping of a character inside a JSON string literal (quote and
backslash; control-character escapes are not needed here). -/
def jsonEscChar (c : Char) : List Char :=
  if c == '"' || c == '\\' then ['\\', c] else [c]

/-- A JSON string literal with its surrounding quotes. -/
def jsonQuote (s : String) : String :=
  "\"" ++ String.mk (s.data.flatMap jsonEscChar) ++ "\""

mutual

/-- Models `JSON.stringify` on a serializable value (compact form, no
whitespace, as the platform produces by default). -/
def jsonStringify : Json → String
  | Json.null => "null"
  | Json.bool true => "true"
  | Json.bool false => "false"
  | Json.num n => intRepr n
  | Json.str s => jsonQuote s
  | Json.arr xs => "[" ++ jsonStringifyList xs ++ "]"
  | Json.obj fs => "\x7b" ++ jsonStringifyFields fs ++ "\x7d"

/-- Comma-separated serialization of array elements. -/
def jsonStringifyList : List Json → String
  | [] => ""
  | [x] => jsonStringify x
  | x :: y :: rest => jsonStringify x ++ "," ++ jsonStringifyList (y :: rest)

/-- Comma-separated serialization of object fields. -/
def jsonStringifyFields : List (String × Json) → String
  | [] => ""
  | [(k, v)] => jsonQuote k ++ ":" ++ jsonStringify v
  | (k, v) :: f :: rest =>
    jsonQuote k ++ ":" ++ jsonStringify v ++ "," ++ jsonStringifyFields (f :: rest)

end

/-! ## Destination classifier (part_000, the range-based variant) -/

/-- The prefixes matched by the classifier regex
`/^(127\.|192\.168\.|10\.|172\.(1[6-9]|2[0-9]|3[0-1])\.)/`, spelled out. -/
def privatePrefixes : List String :=
  ["127.", "192.168.", "10.",
   "172.16.", "172.17.", "172.18.", "172.19.",
   "172.20.", "172.21.", "172.22.", "172.23.",
   "172.24.", "172.25.", "172.26.", "172.27.",
   "172.28.", "172.29.", "172.30.", "172.31."]

/-- The `isPrivate` test of the wrapper: the regex above, an anchored
prefix match on the hostname. -/
def isPrivate (h : String) : Bool :=
  privatePrefixes.any (fun p => strStartsWith p h)

/-- The `isLocal` test: private prefix, or exactly `localhost` or
`0.0.0.0`. -/
def isLocal (h : String) : Bool :=
  isPrivate h || h == "localhost" || h == "0.0.0.0"

/-- Value of a decimal-digit character list (helper for the claim-side
IPv4-literal rule). -/
def digitsValAux : List Char → Nat → Option Nat
  | [], acc => some acc
  | c :: rest, acc =>
    if c.isDigit then digitsValAux rest (acc * 10 + (c.toNat - '0'.toNat))
    else none

/-- Parses a dotted-quad component: nonempty, all decimal digits. -/
def parseOctet (s : String) : Option Nat :=
  match s.data with
  | [] => none
  | l => digitsValAux l 0

/-- Splits a character list at every dot. -/
def splitDotsAux : List Char → List Char → List String
  | [], acc => [String.mk acc.reverse]
  | c :: rest, acc =>
    if c == '.' then String.mk acc.reverse :: splitDotsAux rest []
    else splitDotsAux rest (c :: acc)

/-- Components of a hostname between dots. -/
def splitDots (s : String) : List String := splitDotsAux s.data []

/-- The classification rule exactly as the claim states it, written from
the claim's words for comparison with the code's classifier: Local iff the
hostname is `localhost`, `0.0.0.0`, or an IPv4 literal (four decimal
octets, each at most 255) lying in 127.0.0.0/8, 10.0.0.0/8, 172.16.0.0/12,
or 192.168.0.0/16. -/
def claimIsLocal (h : String) : Bool :=
  h == "localhost" || h == "0.0.0.0" ||
  (match (splitDots h).mapM parseOctet with
   | some [a, b, c, d] =>
     decide (a ≤ 255) && decide (b ≤ 255) && decide (c ≤ 255) && decide (d ≤ 255) &&
     (a == 127 || a == 10 ||
      (a == 172 && decide (16 ≤ b) && decide (b ≤ 31)) ||
      (a == 192 && b == 168))
   | _ => false)

/-! ## Request bodies with JS truthiness (part_000, steps 3 and 4) -/

/-- Body values a caller can supply: a string, a stream-like value exposing
a `text()` method (whose asynchronous draining either yields a string or
fails), a plain serializable object, or an object whose `JSON.stringify`
throws (a circular reference), carrying the result of the `String(v)`
coercion the catch branch falls back to. -/
inductive JsBody where
  | str (s : String)
  | streamLike (text : Except String String)
  | jsonable (j : Json)
  | circular (toStr : String)

/-- JS truthiness of a body value: the empty string is falsy, every
non-string body value here is an object and hence truthy. -/
def jsBodyTruthy : JsBody → Bool
  | JsBody.str s => !(strIsEmpty s)
  | _ => true

/-- JS truthiness of a possibly-absent body (`undefined` is falsy). -/
def jsOptBodyTruthy : Option JsBody → Bool
  | none => false
  | some b => jsBodyTruthy b

/-- JS truthiness of a possibly-absent string option field. -/
def optStrTruthy : Option String → Bool
  | none => false
  | some s => !(strIsEmpty s)

/-- STEP 4 of the wrapper, PREPARE BODY: `if (finalBody)` guards the whole
stage; a string passes through; a stream-like value is drained via
`await finalBody.text()` — this await is NOT inside any try, so a failing
stream escapes the stage as an exception (`Except.error`); any other value
goes through `try { JSON.stringify } catch { String(v) }`, whose catch is
resolved per constructor.  The result is the final body value (a string),
or the untouched falsy original. -/
def bodyStageE : Option JsBody → Except String (Option String)
  | none => Except.ok none
  | some b =>
    if jsBodyTruthy b then
      match b with
      | JsBody.str s => Except.ok (some s)
      | JsBody.streamLike (Except.ok t) => Except.ok (some t)
      | JsBody.streamLike (Except.error e) => Except.error e
      | JsBody.jsonable j => Except.ok (some (jsonStringify j))
      | JsBody.circular ts => Except.ok (some ts)
    else
      Except.ok (match b with
        | JsBody.str s => some s
        | _ => none)

/-! ## Request inputs and the part_000 pipeline -/

/-- A request-like JS object as part_000 inspects it: an optional `url`
field, the presence of a `method` key with its (possibly empty or
undefined, both falsy) value, a `body` field, and a `headers` field that
this variant deliberately ignores. -/
structure JsReqObj where
  urlField : Option String
  hasMethodKey : Bool
  methodVal : String
  bodyField : Option JsBody
  headersField : List (String × String)

/-- The polymorphic `input` argument: a string, a URL instance (its
`href`), a request-like object, or anything else (for which the resolved
url stays the empty string). -/
inductive FetchInput where
  | str (s : String)
  | urlObj (href : String)
  | obj (r : JsReqObj)
  | other

/-- The explicit `init` options object: `method`, `body` and `headers`
fields; part_000 reads the first two under JS truthiness and ignores the
headers. -/
structure InitOpts where
  methodField : Option String
  bodyField : Option JsBody
  headersField : List (String × String)

/-- STEP 1, RESOLVE URL: string input is taken as is, a URL instance
contributes its `href`, an object with a `url` field contributes it, and
otherwise the url stays `''`. -/
def resolveUrl : FetchInput → String
  | FetchInput.str s => s
  | FetchInput.urlObj h => h
  | FetchInput.obj r => r.urlField.getD ""
  | FetchInput.other => ""

/-- The two typo fixes applied to the resolved url: every backslash becomes
a slash, then the FIRST occurrence of `localhost` becomes `127.0.0.1`
(the `includes` guards in the source do not change the result). -/
def fixUrl (u : String) : String :=
  jsReplaceFirst "localhost" "127.0.0.1" (backslashFix u)

/-- The hostname used for classification: `new URL(url).hostname` with the
parse failure swallowed and the hostname defaulting to `localhost`. -/
def hostnameOf (input : FetchInput) : String :=
  (urlHostname (fixUrl (resolveUrl input))).getD "localhost"

/-- STEP 3, EXTRACT DATA, method part: default `GET`; an object input with
a `method` key contributes `input.method || 'GET'`; a truthy `init.method`
overrides; finally the method is upper-cased. -/
def methodOf (input : FetchInput) (init : Option InitOpts) : String :=
  let m1 : String :=
    match input with
    | FetchInput.obj r =>
      if r.hasMethodKey then (if strIsEmpty r.methodVal then "GET" else r.methodVal)
      else "GET"
    | _ => "GET"
  let m2 : String :=
    match init with
    | some o => if optStrTruthy o.methodField then o.methodField.getD m1 else m1
    | none => m1
  jsToUpper m2

/-- STEP 3, EXTRACT DATA, body part: an object input with a `method` key
contributes its `body` field; a truthy `init.body` overrides. -/
def rawBodyOf (input : FetchInput) (init : Option InitOpts) : Option JsBody :=
  let b1 : Option JsBody :=
    match input with
    | FetchInput.obj r => if r.hasMethodKey then r.bodyField else none
    | _ => none
  match init with
  | some o => if jsOptBodyTruthy o.bodyField then o.bodyField else b1
  | none => b1

/-- The GET/HEAD stripping: `if (method === 'GET' || method === 'HEAD')
rawBody = undefined`, applied after upper-casing. -/
def strippedBodyOf (input : FetchInput) (init : Option InitOpts) : Option JsBody :=
  if methodOf input init == "GET" || methodOf input init == "HEAD" then none
  else rawBodyOf input init

/-- STEP 5, RECONSTRUCT HEADERS: the two fixed entries the wrapper always
builds, ignoring whatever headers the caller supplied. -/
def baseHeaders : List (String × String) :=
  [("Content-Type", "application/json"), ("Connection", "keep-alive")]

/-- The reconstructed header mapping: the fixed entries, plus `Host` set to
the resolved hostname exactly when the classification is Local. -/
def buildHeaders (isLoc : Bool) (hostname : String) : List (String × String) :=
  baseHeaders ++ (if isLoc then [("Host", hostname)] else [])

/-- The canonical request handed to the low-level client (STEP 6): method,
reconstructed headers, body (present only when truthy), and which of the
two dispatchers was selected. -/
structure FetchOptions where
  method : String
  headers : List (String × String)
  body : Option String
  dispatcherLocal : Bool
deriving DecidableEq

/-- The Primary pipeline of part_000, from the raw arguments to the url and
canonical request handed to the low-level client; `Except.error` models an
exception escaping the pipeline into the safety net. -/
def primaryRun (input : FetchInput) (init : Option InitOpts) :
    Except String (String × FetchOptions) :=
  let url := fixUrl (resolveUrl input)
  let hostname := (urlHostname url).getD "localhost"
  let isLoc := isLocal hostname
  match bodyStageE (strippedBodyOf input init) with
  | Except.error e => Except.error e
  | Except.ok fin =>
    Except.ok (url,
      { method := methodOf input init,
        headers := buildHeaders isLoc hostname,
        body := match fin with
          | some s => if strIsEmpty s then none else some s
          | none => none,
        dispatcherLocal := isLoc })

/-- The body of the canonical request produced by the Primary pipeline. -/
def primaryBody (input : FetchInput) (init : Option InitOpts) :
    Except String (Option String) :=
  (primaryRun input init).map (fun r => r.2.body)

/-- The whole exported fetch of part_000: the Primary pipeline and the
low-level client call inside the safety-net try/catch, which on any
exception makes one call to the baseline fetch with the original
arguments.  Alongside the result, the list of baseline invocations (each
recorded with the arguments it received) is returned, so that "exactly one
fallback attempt" is expressible. -/
def fetchWithNet {ρ : Type} (undici : String → FetchOptions → Except String ρ)
    (base : FetchInput → Option InitOpts → Except String ρ)
    (input : FetchInput) (init : Option InitOpts) :
    Except String ρ × List (FetchInput × Option InitOpts) :=
  match primaryRun input init with
  | Except.error _ => (base input init, [(input, init)])
  | Except.ok (url, opts) =>
    match undici url opts with
    | Except.ok r => (Except.ok r, [])
    | Except.error _ => (base input init, [(input, init)])

/-! ## The spread-based options merge (first `net.ts` document) -/

/-- A request-like object as the first `net.ts` document merges it: the
four same-named fields the spread copies.  A `none` field models an absent
(or undefined) property. -/
structure ReqObjV1 where
  url : String
  method : Option String
  headers : Option (List (String × String))
  body : Option JsBody
  signal : Option Nat

/-- The explicit options descriptor of the same variant. -/
structure OptionsV1 where
  method : Option String
  headers : Option (List (String × String))
  body : Option JsBody
  signal : Option Nat

/-- The `let options = init || {}` default. -/
def emptyOptionsV1 : OptionsV1 := ⟨none, none, none, none⟩

/-- OPTIONS SETUP of the first `net.ts` document: with a request-like input
(one carrying a `method` property) the merged options are
`{ method: input.method, headers: input.headers, body: input.body,
signal: input.signal, ...options }`, so a field present in the explicit
options wins over the request object's field; without a `method` property
the explicit options are used alone. -/
def mergeOptionsV1 (r : ReqObjV1) (init : Option OptionsV1) : OptionsV1 :=
  let options := init.getD emptyOptionsV1
  if r.method.isSome then
    { method := match options.method with | some v => some v | none => r.method,
      headers := match options.headers with | some v => some v | none => r.headers,
      body := match options.body with | some v => some v | none => r.body,
      signal := match options.signal with | some v => some v | none => r.signal }
  else options

/-- Models the low-level client's documented default for a request whose
merged options carry no method: `GET`. -/
def canonicalMethodV1 (o : OptionsV1) : String := o.method.getD "GET"

/-! ## The MockSlot seam (second `net.ts` document) -/

/-- The dispatch entry point of the second `net.ts` document:
`(mockFetch || baseFetch)(input, init)` — the MockSlot is read on every
invocation and, when it holds a function, that function receives the call
in place of the orchestrator. -/
def dispatchEntry {α β γ : Type} (mockFetch : Option (α → β → γ))
    (baseFetch : α → β → γ) (input : α) (init : β) : γ :=
  (match mockFetch with
   | some m => m
   | none => baseFetch) input init

/-- What a `mockFetchForTesting` callback can do: return a plain value,
throw synchronously, or return a promise whose asynchronous continuation
later transforms the MockSlot further and settles (fulfilled or rejected).
The callback itself receives the slot as installed and returns the slot as
it leaves it, so that nested activations are expressible. -/
inductive CbResult (F α : Type) where
  | sync (v : α)
  | thrown (e : String)
  | promise (run : Option F → Option F × Except String α)

/-- Observable outcome of one `mockFetchForTesting` activation: the
MockSlot when the call returns synchronously, the MockSlot once the
callback's promise (if any) has settled, the list of restore assignments
performed, and the delivered result. -/
structure MFTOutcome (F α : Type) where
  slotAtReturn : Option F
  slotAfterSettle : Option F
  restoreLog : List (Option F)
  result : Except String α

/-- Transcription of `mockFetchForTesting`: the prior slot value is saved,
the replacement installed, the callback run.  A non-promise return or a
synchronous throw leaves `willResetSync` true, so the `finally` block
performs the single restore before the call returns.  A promise return
sets `willResetSync` false — the `finally` block does nothing — and the
single restore is attached via `.finally` to the promise, running when it
settles, with the settled outcome passed through. -/
def mockFetchForTesting {F α : Type} (theFetch : F)
    (callback : Option F → Option F × CbResult F α)
    (mockFetch : Option F) : MFTOutcome F α :=
  let originalMockFetch := mockFetch
  match callback (some theFetch) with
  | (_, CbResult.sync v) =>
    { slotAtReturn := originalMockFetch, slotAfterSettle := originalMockFetch,
      restoreLog := [originalMockFetch], result := Except.ok v }
  | (_, CbResult.thrown e) =>
    { slotAtReturn := originalMockFetch, slotAfterSettle := originalMockFetch,
      restoreLog := [originalMockFetch], result := Except.error e }
  | (s2, CbResult.promise run) =>
    { slotAtReturn := s2, slotAfterSettle := originalMockFetch,
      restoreLog := [originalMockFetch], result := (run s2).2 }

/-! ## Helper lemmas -/

/-- Character data of an appended string. -/
theorem str_data_append (a b : String) : (a ++ b).data = a.data ++ b.data := rfl

/-- With fuel available, the numeral printer emits at least one digit. -/
theorem natDigsCore_ne_nil (fuel n : Nat) : natDigsCore (fuel + 1) n ≠ [] := by
  unfold natDigsCore
  split
  · simp
  · simp

/-- A natural-number numeral is never the empty list. -/
theorem natDigs_ne_nil (n : Nat) : natDigs n ≠ [] := natDigsCore_ne_nil n n

/-- Integer printing never yields the empty string. -/
theorem intRepr_data_ne_nil (n : Int) : (intRepr n).data ≠ [] := by
  cases n with
  | ofNat m => exact natDigs_ne_nil m
  | negSucc m => simp [intRepr, str_data_append, natToStr]

/-- Serialization of a JSON value never yields the empty string, so the
serialized body is always truthy. -/
theorem jsonStringify_data_ne_nil (j : Json) : (jsonStringify j).data ≠ [] := by
  cases j with
  | null => simp [jsonStringify]
  | bool b => cases b <;> simp [jsonStringify]
  | num n => simpa [jsonStringify] using intRepr_data_ne_nil n
  | str s => simp [jsonStringify, jsonQuote, str_data_append]
  | arr xs => simp [jsonStringify, str_data_append]
  | obj fs => simp [jsonStringify, str_data_append]

/-- Serialized JSON is not the empty string (Bool form). -/
theorem strIsEmpty_jsonStringify (j : Json) : strIsEmpty (jsonStringify j) = false := by
  have h := jsonStringify_data_ne_nil j
  simp [strIsEmpty, List.isEmpty_iff]
  exact h

/-- Mapping a function that fixes every element of a list is the
identity. -/
theorem list_map_id_of {α : Type} (f : α → α) :
    ∀ l : List α, (∀ c ∈ l, f c = c) → l.map f = l := by
  intro l h
  induction l with
  | nil => rfl
  | cons c rest ih =>
    simp only [List.map_cons]
    rw [h c (by simp), ih (fun x hx => h x (by simp [hx]))]

/-- The backslash fix leaves a backslash-free URL unchanged. -/
theorem backslashFix_eq_self (u : String) (h : ∀ c ∈ u.data, c ≠ '\\') :
    backslashFix u = u := by
  unfold backslashFix
  conv_rhs => rw [show u = String.mk u.data from rfl]
  congr 1
  apply list_map_id_of
  intro c hc
  have hne := h c hc
  simp [hne]

/-! ## Claim theorems -/

/-- C1: for every input/options pair, whenever the Primary pipeline raises
(normalization failure) or the low-level client call fails, the wrapper
makes exactly one fallback attempt — the baseline fetch invoked once, on
the original unmodified `input` and `init` and nothing else — and the
fallback's outcome, its failure included, is what the caller receives. -/
theorem fallback_once_with_original_args {ρ : Type}
    (undici : String → FetchOptions → Except String ρ)
    (base : FetchInput → Option InitOpts → Except String ρ)
    (input : FetchInput) (init : Option InitOpts) :
    (∀ e, primaryRun input init = Except.error e →
      fetchWithNet undici base input init = (base input init, [(input, init)])) ∧
    (∀ u opts e, primaryRun input init = Except.ok (u, opts) →
      undici u opts = Except.error e →
      fetchWithNet undici base input init = (base input init, [(input, init)])) := by
  constructor
  · intro e he
    simp [fetchWithNet, he]
  · intro u opts e h1 h2
    simp [fetchWithNet, h1, h2]

/-- A low-level client that always fails with a transport error. -/
def wUndici : String → FetchOptions → Except String Unit :=
  fun _ _ => Except.error "transport down"

/-- A baseline fetch that itself fails. -/
def wBase : FetchInput → Option InitOpts → Except String Unit :=
  fun _ _ => Except.error "baseline down"

/-- Witness for C1: a concrete remote request whose transport fails is
retried exactly once through the baseline with the original arguments, and
the baseline's own error is the final outcome. -/
theorem fallback_once_with_original_args_witness :
    fetchWithNet wUndici wBase (FetchInput.str "http://example.com/") none =
      (Except.error "baseline down", [(FetchInput.str "http://example.com/", none)]) := by
  have h := (fallback_once_with_original_args wUndici wBase
      (FetchInput.str "http://example.com/") none).2
      "http://example.com/" ⟨"GET", buildHeaders false "example.com", none, false⟩
      "transport down" (by rfl) (by rfl)
  simpa [wBase] using h

/-- C5: whenever the effective (upper-cased) method is GET or HEAD, the
canonical request handed to the low-level client carries no body, whatever
body the caller supplied in the request object or the explicit options. -/
theorem get_head_body_absent (input : FetchInput) (init : Option InitOpts)
    (h : methodOf input init = "GET" ∨ methodOf input init = "HEAD") :
    primaryBody input init = Except.ok none := by
  have hs : strippedBodyOf input init = none := by
    rcases h with h | h <;> simp [strippedBodyOf, h]
  simp [primaryBody, primaryRun, hs, bodyStageE, Except.map]

/-- Witness for C5: a GET request (lower-case in the options, body
supplied) still produces a body-less canonical request. -/
theorem get_head_body_absent_witness :
    primaryBody (FetchInput.str "http://example.com/")
      (some ⟨some "get", some (JsBody.str "payload"), []⟩) = Except.ok none :=
  get_head_body_absent _ _ (Or.inl (by rfl))

/-- C8: for every JSON-serializable object body supplied with method POST
(whatever url string and caller headers accompany it), the canonical
request's body is exactly the JSON serialization of that object. -/
theorem post_json_body (u : String) (j : Json) (hs : List (String × String)) :
    primaryBody (FetchInput.str u) (some ⟨some "POST", some (JsBody.jsonable j), hs⟩) =
      Except.ok (some (jsonStringify j)) := by
  have hm : strippedBodyOf (FetchInput.str u)
      (some ⟨some "POST", some (JsBody.jsonable j), hs⟩) = some (JsBody.jsonable j) := rfl
  simp [primaryBody, primaryRun, hm, bodyStageE, jsBodyTruthy, strIsEmpty_jsonStringify,
    Except.map]

/-- C9 counterexample: a stream-like body whose text extraction fails makes
the body-normalization stage itself raise — the `await finalBody.text()` is
outside the stage's try/catch — so the stage is not raise-free for every
body value. -/
theorem body_stage_raises_on_failing_stream :
    bodyStageE (some (JsBody.streamLike (Except.error "stream broke"))) =
      Except.error "stream broke" := rfl

/-- C9 (amended): for every body value except a stream-like one whose text
extraction itself fails, the normalization stage raises nothing; in
particular a non-serializable (circular) object never raises — its
canonical body is the `String(v)` representation produced by the catch
branch. -/
theorem body_stage_total_except_failing_stream :
    (∀ b : Option JsBody, (∀ e, b ≠ some (JsBody.streamLike (Except.error e))) →
      ∃ v, bodyStageE b = Except.ok v) ∧
    (∀ ts, bodyStageE (some (JsBody.circular ts)) = Except.ok (some ts)) := by
  constructor
  · intro b hb
    match b with
    | none => exact ⟨none, rfl⟩
    | some (JsBody.str s) => exact ⟨some s, by simp [bodyStageE]⟩
    | some (JsBody.streamLike (Except.ok t)) => exact ⟨some t, rfl⟩
    | some (JsBody.streamLike (Except.error e)) => exact absurd rfl (hb e)
    | some (JsBody.jsonable j) => exact ⟨some (jsonStringify j), rfl⟩
    | some (JsBody.circular ts) => exact ⟨some ts, rfl⟩
  · intro ts
    rfl

/-- Witness for C9 (amended): a concrete circular body goes through the
stage without raising. -/
theorem body_stage_total_witness :
    ∃ v, bodyStageE (some (JsBody.circular "[object Object]")) = Except.ok v :=
  body_stage_total_except_failing_stream.1 (some (JsBody.circular "[object Object]"))
    (fun e h => by simp at h)

/-- C2 counterexample: the code classifies by textual prefix, so the DNS
name `10.evil.example.com` — neither `localhost`, `0.0.0.0`, nor an IPv4
literal — is classified Local, contradicting the claimed iff. -/
theorem classifier_prefix_counterexample :
    isLocal "10.evil.example.com" = true ∧
      claimIsLocal "10.evil.example.com" = false :=
  ⟨rfl, rfl⟩

/-- C2 (amended): the hostname is classified Local iff it is `localhost`,
`0.0.0.0`, or begins with one of the textual prefixes `127.`, `192.168.`,
`10.`, or `172.16.` through `172.31.` — so every dotted-quad in the stated
private/loopback ranges is Local, but so is any hostname that merely
begins with such a prefix; the direct dispatcher is selected exactly when
the classification is Local. -/
theorem isLocal_iff_prefix_rule :
    (∀ h : String, isLocal h = true ↔
      (h = "localhost" ∨ h = "0.0.0.0" ∨
       strStartsWith "127." h = true ∨ strStartsWith "192.168." h = true ∨
       strStartsWith "10." h = true ∨
       (∃ n : Nat, 16 ≤ n ∧ n ≤ 31 ∧
         strStartsWith ("172." ++ natToStr n ++ ".") h = true))) ∧
    (∀ a b c d : Nat,
      (a = 127 ∨ a = 10 ∨ (a = 172 ∧ 16 ≤ b ∧ b ≤ 31) ∨ (a = 192 ∧ b = 168)) →
      isLocal (natToStr a ++ "." ++ natToStr b ++ "." ++ natToStr c ++ "." ++
        natToStr d) = true) ∧
    (∀ input init u opts, primaryRun input init = Except.ok (u, opts) →
      opts.dispatcherLocal = isLocal (hostnameOf input)) := by
  refine ⟨?_, ?_, ?_⟩
  · intro h
    simp only [isLocal, isPrivate, privatePrefixes, List.any_cons, List.any_nil,
      Bool.or_false, Bool.or_eq_true, beq_iff_eq]
    constructor
    · rintro (((hp | hp | hp | hp | hp | hp | hp | hp | hp | hp | hp | hp | hp | hp | hp | hp | hp | hp | hp) | hl) | h0)
      exacts [Or.inr (Or.inr (Or.inl hp)),
        Or.inr (Or.inr (Or.inr (Or.inl hp))),
        Or.inr (Or.inr (Or.inr (Or.inr (Or.inl hp)))),
        Or.inr (Or.inr (Or.inr (Or.inr (Or.inr (⟨16, by omega, by omega, hp⟩))))),
        Or.inr (Or.inr (Or.inr (Or.inr (Or.inr (⟨17, by omega, by omega, hp⟩))))),
        Or.inr (Or.inr (Or.inr (Or.inr (Or.inr (⟨18, by omega, by omega, hp⟩))))),
        Or.inr (Or.inr (Or.inr (Or.inr (Or.inr (⟨19, by omega, by omega, hp⟩))))),
        Or.inr (Or.inr (Or.inr (Or.inr (Or.inr (⟨20, by omega, by omega, hp⟩))))),
        Or.inr (Or.inr (Or.inr (Or.inr (Or.inr (⟨21, by omega, by omega, hp⟩))))),
        Or.inr (Or.inr (Or.inr (Or.inr (Or.inr (⟨22, by omega, by omega, hp⟩))))),
        Or.inr (Or.inr (Or.inr (Or.inr (Or.inr (⟨23, by omega, by omega, hp⟩))))),
        Or.inr (Or.inr (Or.inr (Or.inr (Or.inr (⟨24, by omega, by omega, hp⟩))))),
        Or.inr (Or.inr (Or.inr (Or.inr (Or.inr (⟨25, by omega, by omega, hp⟩))))),
        Or.inr (Or.inr (Or.inr (Or.inr (Or.inr (⟨26, by omega, by omega, hp⟩))))),
        Or.inr (Or.inr (Or.inr (Or.inr (Or.inr (⟨27, by omega, by omega, hp⟩))))),
        Or.inr (Or.inr (Or.inr (Or.inr (Or.inr (⟨28, by omega, by omega, hp⟩))))),
        Or.inr (Or.inr (Or.inr (Or.inr (Or.inr (⟨29, by omega, by omega, hp⟩))))),
        Or.inr (Or.inr (Or.inr (Or.inr (Or.inr (⟨30, by omega, by omega, hp⟩))))),
        Or.inr (Or.inr (Or.inr (Or.inr (Or.inr (⟨31, by omega, by omega, hp⟩))))),
        Or.inl hl,
        Or.inr (Or.inl h0)]
    · rintro (hl | h0 | hp | hp | hp | ⟨n, hn1, hn2, hp⟩)
      · exact Or.inl (Or.inr hl)
      · exact Or.inr h0
      · exact Or.inl (Or.inl (Or.inl hp))
      · exact Or.inl (Or.inl (Or.inr (Or.inl hp)))
      · exact Or.inl (Or.inl (Or.inr (Or.inr (Or.inl hp))))
      · interval_cases n
        exacts [Or.inl (Or.inl (Or.inr (Or.inr (Or.inr (Or.inl hp))))),
          Or.inl (Or.inl (Or.inr (Or.inr (Or.inr (Or.inr (Or.inl hp)))))),
          Or.inl (Or.inl (Or.inr (Or.inr (Or.inr (Or.inr (Or.inr (Or.inl hp))))))),
          Or.inl (Or.inl (Or.inr (Or.inr (Or.inr (Or.inr (Or.inr (Or.inr (Or.inl hp)))))))),
          Or.inl (Or.inl (Or.inr (Or.inr (Or.inr (Or.inr (Or.inr (Or.inr (Or.inr (Or.inl hp))))))))),
          Or.inl (Or.inl (Or.inr (Or.inr (Or.inr (Or.inr (Or.inr (Or.inr (Or.inr (Or.inr (Or.inl hp)))))))))),
          Or.inl (Or.inl (Or.inr (Or.inr (Or.inr (Or.inr (Or.inr (Or.inr (Or.inr (Or.inr (Or.inr (Or.inl hp))))))))))),
          Or.inl (Or.inl (Or.inr (Or.inr (Or.inr (Or.inr (Or.inr (Or.inr (Or.inr (Or.inr (Or.inr (Or.inr (Or.inl hp)))))))))))),
          Or.inl (Or.inl (Or.inr (Or.inr (Or.inr (Or.inr (Or.inr (Or.inr (Or.inr (Or.inr (Or.inr (Or.inr (Or.inr (Or.inl hp))))))))))))),
          Or.inl (Or.inl (Or.inr (Or.inr (Or.inr (Or.inr (Or.inr (Or.inr (Or.inr (Or.inr (Or.inr (Or.inr (Or.inr (Or.inr (Or.inl hp)))))))))))))),
          Or.inl (Or.inl (Or.inr (Or.inr (Or.inr (Or.inr (Or.inr (Or.inr (Or.inr (Or.inr (Or.inr (Or.inr (Or.inr (Or.inr (Or.inr (Or.inl hp))))))))))))))),
          Or.inl (Or.inl (Or.inr (Or.inr (Or.inr (Or.inr (Or.inr (Or.inr (Or.inr (Or.inr (Or.inr (Or.inr (Or.inr (Or.inr (Or.inr (Or.inr (Or.inl hp)))))))))))))))),
          Or.inl (Or.inl (Or.inr (Or.inr (Or.inr (Or.inr (Or.inr (Or.inr (Or.inr (Or.inr (Or.inr (Or.inr (Or.inr (Or.inr (Or.inr (Or.inr (Or.inr (Or.inl hp))))))))))))))))),
          Or.inl (Or.inl (Or.inr (Or.inr (Or.inr (Or.inr (Or.inr (Or.inr (Or.inr (Or.inr (Or.inr (Or.inr (Or.inr (Or.inr (Or.inr (Or.inr (Or.inr (Or.inr (Or.inl hp)))))))))))))))))),
          Or.inl (Or.inl (Or.inr (Or.inr (Or.inr (Or.inr (Or.inr (Or.inr (Or.inr (Or.inr (Or.inr (Or.inr (Or.inr (Or.inr (Or.inr (Or.inr (Or.inr (Or.inr (Or.inr (Or.inl hp))))))))))))))))))),
          Or.inl (Or.inl (Or.inr (Or.inr (Or.inr (Or.inr (Or.inr (Or.inr (Or.inr (Or.inr (Or.inr (Or.inr (Or.inr (Or.inr (Or.inr (Or.inr (Or.inr (Or.inr (Or.inr (Or.inr (hp))))))))))))))))))))]
  · rintro a b c d (rfl | rfl | ⟨rfl, hb1, hb2⟩ | ⟨rfl, rfl⟩)
    · rfl
    · rfl
    · interval_cases b <;> rfl
    · rfl
  · intro input init u opts h
    simp only [primaryRun] at h
    cases hbs : bodyStageE (strippedBodyOf input init) with
    | error e =>
      rw [hbs] at h
      simp at h
    | ok fin =>
      rw [hbs] at h
      simp only [Except.ok.injEq, Prod.mk.injEq] at h
      obtain ⟨-, h2⟩ := h
      rw [← h2]
      rfl

/-- Witness for C2 (amended): a private-prefix hostname is Local by the
characterization, a dotted-quad in 10.0.0.0/8 is Local by subsumption, and
on a concrete local request the selected dispatcher matches the
classification. -/
theorem isLocal_iff_prefix_rule_witness :
    isLocal "172.20.1.2" = true ∧
    isLocal (natToStr 10 ++ "." ++ natToStr 0 ++ "." ++ natToStr 0 ++ "." ++
      natToStr 1) = true ∧
    (FetchOptions.mk "GET" (buildHeaders true "172.20.9.9") none true).dispatcherLocal =
      isLocal (hostnameOf (FetchInput.str "http://172.20.9.9/")) := by
  refine ⟨?_, ?_, ?_⟩
  · exact (isLocal_iff_prefix_rule.1 "172.20.1.2").mpr
      (Or.inr (Or.inr (Or.inr (Or.inr (Or.inr ⟨20, by omega, by omega, by rfl⟩)))))
  · exact isLocal_iff_prefix_rule.2.1 10 0 0 1 (Or.inr (Or.inl rfl))
  · exact isLocal_iff_prefix_rule.2.2 (FetchInput.str "http://172.20.9.9/") none
      "http://172.20.9.9/" (FetchOptions.mk "GET" (buildHeaders true "172.20.9.9") none true)
      (by rfl)

/-- C6 counterexample: in a URL with two occurrences of `localhost` only
the first is rewritten — the dispatched URL still contains `localhost`,
so "every occurrence is rewritten" fails. -/
theorem localhost_second_occurrence_survives :
    fixUrl "http://localhost/a/localhost" = "http://127.0.0.1/a/localhost" ∧
    occursSub "localhost" (fixUrl "http://localhost/a/localhost") = true :=
  ⟨rfl, rfl⟩

/-- C6 (amended): the FIRST occurrence of `localhost` in the resolved URL
is rewritten to `127.0.0.1` before classification and dispatch (later
occurrences are preserved); in particular, for input
`http://localhost:3000/x` the canonical request's URL host is
`127.0.0.1`. -/
theorem localhost_first_occurrence_rewritten :
    (∀ u pre post : String, (∀ c ∈ u.data, c ≠ '\\') →
      splitFirst "localhost" u = some (pre, post) →
      fixUrl u = pre ++ "127.0.0.1" ++ post) ∧
    hostnameOf (FetchInput.str "http://localhost:3000/x") = "127.0.0.1" := by
  constructor
  · intro u pre post hbs hsp
    simp [fixUrl, jsReplaceFirst, backslashFix_eq_self u hbs, hsp]
  · rfl

/-- Witness for C6 (amended): the flagship URL decomposes around its only
`localhost` occurrence and is rewritten there. -/
theorem localhost_first_occurrence_rewritten_witness :
    fixUrl "http://localhost:3000/x" = "http://" ++ "127.0.0.1" ++ ":3000/x" :=
  localhost_first_occurrence_rewritten.1 "http://localhost:3000/x" "http://" ":3000/x"
    (by decide) (by rfl)

/-- C7: in the spread-based merge, each of method, headers, body and signal
is taken from the explicit options when present there, otherwise from the
request-like object (one carrying a `method` property, as the spec defines
request-like); with neither present the body is absent and a surviving
method is the canonical one (the client defaulting to GET otherwise). -/
theorem merge_precedence (r : ReqObjV1) (o : OptionsV1) (hr : r.method.isSome = true) :
    ((∀ v, o.method = some v → (mergeOptionsV1 r (some o)).method = some v) ∧
     (o.method = none → (mergeOptionsV1 r (some o)).method = r.method)) ∧
    ((∀ v, o.headers = some v → (mergeOptionsV1 r (some o)).headers = some v) ∧
     (o.headers = none → (mergeOptionsV1 r (some o)).headers = r.headers)) ∧
    ((∀ v, o.body = some v → (mergeOptionsV1 r (some o)).body = some v) ∧
     (o.body = none → (mergeOptionsV1 r (some o)).body = r.body)) ∧
    ((∀ v, o.signal = some v → (mergeOptionsV1 r (some o)).signal = some v) ∧
     (o.signal = none → (mergeOptionsV1 r (some o)).signal = r.signal)) ∧
    (o.body = none → r.body = none → (mergeOptionsV1 r (some o)).body = none) ∧
    (∀ v, (mergeOptionsV1 r (some o)).method = some v →
      canonicalMethodV1 (mergeOptionsV1 r (some o)) = v) := by
  refine ⟨⟨?_, ?_⟩, ⟨?_, ?_⟩, ⟨?_, ?_⟩, ⟨?_, ?_⟩, ?_, ?_⟩
  · intro v hv; simp [mergeOptionsV1, hr, hv]
  · intro hv; simp [mergeOptionsV1, hr, hv]
  · intro v hv; simp [mergeOptionsV1, hr, hv]
  · intro hv; simp [mergeOptionsV1, hr, hv]
  · intro v hv; simp [mergeOptionsV1, hr, hv]
  · intro hv; simp [mergeOptionsV1, hr, hv]
  · intro v hv; simp [mergeOptionsV1, hr, hv]
  · intro hv; simp [mergeOptionsV1, hr, hv]
  · intro h1 h2; simp [mergeOptionsV1, hr, h1, h2]
  · intro v hv; simp [canonicalMethodV1, hv]

/-- Request-like object for the C7 witness: carries a method, a body and a
url. -/
def r0 : ReqObjV1 := ⟨"http://s/", some "put", none, some (JsBody.str "b"), none⟩

/-- Explicit options for the C7 witness: override the method, supply
headers, leave body and signal absent. -/
def o0 : OptionsV1 := ⟨some "POST", some [("A", "1")], none, none⟩

/-- Witness for C7: the explicit method wins, the absent explicit body
falls back to the request object's body. -/
theorem merge_precedence_witness :
    (mergeOptionsV1 r0 (some o0)).method = some "POST" ∧
    (mergeOptionsV1 r0 (some o0)).body = some (JsBody.str "b") := by
  constructor
  · exact ((merge_precedence r0 o0 rfl).1).1 "POST" rfl
  · exact (((merge_precedence r0 o0 rfl).2.2).1).2 rfl

/-- C10: in the range-based-classifier variant the canonical request's
header mapping is exactly Content-Type plus Connection, with Host set to
the resolved hostname exactly when the classification is Local; and the
pipeline is wholly insensitive to the caller-supplied header fields, so
caller headers such as Authorization are always dropped. -/
theorem headers_fixed_and_caller_headers_dropped :
    (∀ input init u opts, primaryRun input init = Except.ok (u, opts) →
      opts.headers =
        [("Content-Type", "application/json"), ("Connection", "keep-alive")] ++
          (if isLocal (hostnameOf input) then [("Host", hostnameOf input)] else [])) ∧
    (∀ (r : JsReqObj) (o : InitOpts) (hs hs2 hs3 hs4 : List (String × String)),
      primaryRun (FetchInput.obj { r with headersField := hs })
          (some { o with headersField := hs3 }) =
        primaryRun (FetchInput.obj { r with headersField := hs2 })
          (some { o with headersField := hs4 })) := by
  constructor
  · intro input init u opts h
    simp only [primaryRun] at h
    cases hbs : bodyStageE (strippedBodyOf input init) with
    | error e =>
      rw [hbs] at h
      simp at h
    | ok fin =>
      rw [hbs] at h
      simp only [Except.ok.injEq, Prod.mk.injEq] at h
      obtain ⟨-, h2⟩ := h
      rw [← h2]
      rfl
  · intro r o hs hs2 hs3 hs4
    rfl

/-- A concrete request-like input carrying an Authorization header, for
the C10 witness. -/
def i10 : FetchInput :=
  FetchInput.obj ⟨some "http://127.0.0.1:8080/", true, "POST",
    some (JsBody.str "x"), [("Authorization", "secret")]⟩

/-- Witness for C10: on a local request carrying an Authorization header
the canonical headers are exactly the two fixed entries plus Host. -/
theorem headers_fixed_witness :
    (FetchOptions.mk "POST"
        [("Content-Type", "application/json"), ("Connection", "keep-alive"),
         ("Host", "127.0.0.1")] (some "x") true).headers =
      [("Content-Type", "application/json"), ("Connection", "keep-alive")] ++
        (if isLocal (hostnameOf i10) then [("Host", hostnameOf i10)] else []) :=
  headers_fixed_and_caller_headers_dropped.1 i10 none "http://127.0.0.1:8080/"
    (FetchOptions.mk "POST"
      [("Content-Type", "application/json"), ("Connection", "keep-alive"),
       ("Host", "127.0.0.1")] (some "x") true)
    (by rfl)

/-- C3: on every invocation of the dispatch entry point the MockSlot is
consulted first — with the slot set the call is delegated entirely to the
replacement (the result does not depend on the orchestrator at all), and
with the slot empty the orchestrator handles the call. -/
theorem mock_slot_delegation {α β γ : Type} (m : α → β → γ) (base base2 : α → β → γ)
    (input : α) (init : β) :
    dispatchEntry (some m) base input init = m input init ∧
    dispatchEntry (some m) base input init = dispatchEntry (some m) base2 input init ∧
    dispatchEntry none base input init = base input init :=
  ⟨rfl, rfl, rfl⟩

/-- C4: every activation of mockFetchForTesting performs exactly one
restore, and it restores the MockSlot to the value held immediately before
the activation (not to the absent state), on every exit path: at the
synchronous return for a plain value or a synchronous throw, and at promise
settlement (fulfilled or rejected) for an asynchronous callback — in the
asynchronous case the slot is untouched at return time and the settled
outcome is passed through. -/
theorem mock_restore_every_path {F α : Type} (theFetch : F)
    (callback : Option F → Option F × CbResult F α) (s : Option F) :
    (mockFetchForTesting theFetch callback s).restoreLog = [s] ∧
    (mockFetchForTesting theFetch callback s).slotAfterSettle = s ∧
    (∀ s2 run, callback (some theFetch) = (s2, CbResult.promise run) →
      (mockFetchForTesting theFetch callback s).slotAtReturn = s2 ∧
      (mockFetchForTesting theFetch callback s).result = (run s2).2) ∧
    (∀ s2 v, callback (some theFetch) = (s2, CbResult.sync v) →
      (mockFetchForTesting theFetch callback s).slotAtReturn = s ∧
      (mockFetchForTesting theFetch callback s).result = Except.ok v) ∧
    (∀ s2 e, callback (some theFetch) = (s2, CbResult.thrown e) →
      (mockFetchForTesting theFetch callback s).slotAtReturn = s ∧
      (mockFetchForTesting theFetch callback s).result = Except.error e) := by
  rcases hcb : callback (some theFetch) with ⟨s2, out⟩
  cases out <;> simp_all [mockFetchForTesting]

/-- Callback for the C4 witness: returns a promise that is later
rejected. -/
def cbW : Option Nat → Option Nat × CbResult Nat Nat :=
  fun sl => (sl, CbResult.promise (fun sl2 => (sl2, Except.error "callback rejected")))

/-- Witness for C4: with a previously-set slot and an asynchronously
rejected callback, the slot is restored exactly once to the prior value
and the rejection is passed through. -/
theorem mock_restore_every_path_witness :
    (mockFetchForTesting 7 cbW (some 3)).restoreLog = [some 3] ∧
    (mockFetchForTesting 7 cbW (some 3)).slotAfterSettle = some 3 ∧
    (mockFetchForTesting 7 cbW (some 3)).result = Except.error "callback rejected" := by
  refine ⟨(mock_restore_every_path 7 cbW (some 3)).1,
          (mock_restore_every_path 7 cbW (some 3)).2.1, ?_⟩
  have h := (mock_restore_every_path 7 cbW (some 3)).2.2.1 (some 7)
      (fun sl2 => (sl2, Except.error "callback rejected")) rfl
  exact h.2
